import Mathlib

/-!
Verification of the 0-ork process core (`src/process/process.go`).

The Go code is shallowly embedded:
* `ProcRef` models `process.Process` (the external gopsutil handle): each
  fallible accessor (`Ppid`, `Name`, `Times().Total()`, `MemoryInfo().RSS`)
  is an `Option` field, `none` meaning the call returns an error.
* `processesMap` is the assoc-list image of the Go `map[int32]*process.Process`;
  `whiteListMap` / `killableKidsPids` are pid lists.
* `isProcessKillable` / `isParentKillable` follow the Go functions line by
  line; the unbounded Go recursion is given an explicit fuel argument
  (`none` = fuel exhausted, which the Go code would spin on).
* The per-process body of `UpdateCache` is `processOne`, producing the
  `c.Set` call (key, entry, ttl) it performs, if any; the cached `Process`
  struct keeps the ewma state abstractly as the list of samples fed to it.
-/

namespace Ork

/-- Model of the gopsutil `process.Process` handle for one cycle.
`none` in a field means the corresponding accessor returns an error. -/
structure ProcRef where
  pid : Int
  ppid : Option Int
  name : Option String
  cpuTotal : Option ℚ
  rss : Option Nat
deriving DecidableEq, Repr

/-- `processesMap` from the source: pid-indexed map of process handles. -/
abbrev processesMap := List (Int × ProcRef)

/-- `whiteListMap` from the source: set of protected pids. -/
abbrev whiteListMap := List Int

/-- `killableKidsPids` from the source: set of exempt pids. -/
abbrev killableKidsPids := List Int

/-- `whitelistNames` from the source: names that should never be killed. -/
def whitelistNames : List String :=
  ["0-ork", "qemu-system-x86_64", "libvirtd", "coreX", "core0", "kthreadd", "g8ufs"]

/-- `killableKidsNames` from the source. -/
def killableKidsNames : List String := ["core0", "coreX"]

/-- Result of `isProcessKillable` / `isParentKillable`: `ok b` is `(b, nil)`,
`err` is `(false, error)` (the Go code always pairs a non-nil error with
`false`). -/
inductive KResult where
  | ok (b : Bool)
  | err
deriving DecidableEq, Repr

/-- `isParentKillable` from the source, with explicit fuel for the unbounded
Go recursion (`none` = fuel exhausted; the Go walk has no cycle guard). -/
def isParentKillable (fuel : Nat) (p : ProcRef) (pMap : processesMap)
    (whiteList : whiteListMap) (killableKids : killableKidsPids) : Option KResult :=
  match fuel with
  | 0 => none
  | fuel + 1 =>
    match p.ppid with
    | none => some KResult.err
    | some pPid =>
      if pPid ∈ whiteList then
        if pPid ∈ killableKids then some (KResult.ok true)
        else some (KResult.ok false)
      else
        match pMap.lookup pPid with
        | none => some KResult.err
        | some parent => isParentKillable fuel parent pMap whiteList killableKids

/-- `isProcessKillable` from the source. -/
def isProcessKillable (fuel : Nat) (p : ProcRef) (pMap : processesMap)
    (whiteList : whiteListMap) (killableKids : killableKidsPids) : Option KResult :=
  if p.pid ∈ whiteList then some (KResult.ok false)
  else isParentKillable fuel p pMap whiteList killableKids

/-- The body of the `setupWhiteList` loop for one snapshot entry: a process
whose name resolves into `whitelistNames` is appended to the white list, and
additionally to `killableKids` when the name is in `killableKidsNames`.
Name-resolution failure skips the process. -/
def setupWhiteListStep (acc : whiteListMap × killableKidsPids) (pr : Int × ProcRef) :
    whiteListMap × killableKidsPids :=
  match pr.2.name with
  | none => acc
  | some processName =>
    if processName ∈ whitelistNames then
      if processName ∈ killableKidsNames then
        (acc.1 ++ [pr.2.pid], acc.2 ++ [pr.2.pid])
      else
        (acc.1 ++ [pr.2.pid], acc.2)
    else acc

/-- `setupWhiteList` from the source: one pass over the snapshot applying
`setupWhiteListStep` to every entry. -/
def setupWhiteList (pMap : processesMap) : whiteListMap × killableKidsPids :=
  pMap.foldl setupWhiteListStep ([], [])

/-- `makeProcessesMap` from the source: resolves every enumerated pid with
`newProcess` (the `process.NewProcess` collaborator); a single failed
resolution makes the whole function return an error (`none`). -/
def makeProcessesMap (pids : List Int) (newProcess : Int → Option ProcRef) :
    Option processesMap :=
  match pids with
  | [] => some []
  | pid :: rest =>
    match newProcess pid with
    | none => none
    | some p =>
      match makeProcessesMap rest newProcess with
      | none => none
      | some m => some ((p.pid, p) :: m)

/-- Truncation toward zero of a rational, as Go converts `float64` to the
integer type `time.Duration`. -/
def truncRat (q : ℚ) : Int := Int.tdiv q.num (q.den : Int)

/-- The source line `time.Duration(total) * time.Second / time.Nanosecond`:
the seconds reading is truncated to an integer first, then scaled to
nanoseconds. -/
def nanoSeconds (total : ℚ) : Int := truncRat total * 1000000000

/-- Modelled from the spec: `utils.Delta` (package `utils` of this
repository, not under `src/`) keeps an internal cumulative baseline; each
call returns the non-negative difference of the new cumulative reading
against the baseline, clamped to zero when the counter decreased, and the
baseline becomes the new reading. Returns (delta, new baseline). -/
def deltaStep (baseline reading : Int) : Int × Int :=
  (if baseline ≤ reading then reading - baseline else 0, reading)

/-- The cached `Process` struct from the source. `cpuSamples` abstracts the
external `ewma.MovingAverage` by the list of values fed to its `Add`;
`cpuBaseline` is the internal baseline of the `cpuDelta` closure (modelled
from the spec, see `deltaStep`). -/
structure Process where
  name : String
  cpuBaseline : Int
  cpuSamples : List Int
  memUsage : Nat
deriving DecidableEq, Repr

/-- `Process.Name` accessor from the source. -/
def Process.Name (p : Process) : String := p.name

/-- `Process.Memory` accessor from the source. -/
def Process.Memory (p : Process) : Nat := p.memUsage

/-- One `c.Set(key, value, ttl)` call performed by `UpdateCache`. -/
structure SetOp where
  key : String
  entry : Process
  ttlSeconds : Nat
deriving DecidableEq, Repr

/-- The TTL cache within one cycle: assoc list, `Get` is `lookup`. -/
abbrev Cache := List (String × Process)

/-- The `Get`-then-create-or-refresh block of `UpdateCache` (source lines
112–125): `Get` on the decimal pid key; on a hit, feed the clamped delta of
the new nanosecond reading into the moving average of the cached entry and move
its baseline; on a miss, create an entry named by the key whose delta
baseline is the current reading, with an empty moving average. -/
def scoredEntry (c : Cache) (pid : Int) (ns : Int) : Process :=
  match c.lookup (toString pid) with
  | some cached =>
    let d := deltaStep cached.cpuBaseline ns
    { cached with cpuBaseline := d.2, cpuSamples := cached.cpuSamples ++ [d.1] }
  | none =>
    { name := toString pid, cpuBaseline := ns, cpuSamples := [], memUsage := 0 }

/-- The body of the `UpdateCache` loop for one `(pid, proc)` pair of the
snapshot, against cache `c`: returns the `c.Set` call it performs, or
`none` when the process is skipped (not killable, killability error, fuel
exhaustion, or a failing CPU-time / memory accessor). Mirrors source lines
91–128: killability check, `Times().Total()` to nanoseconds, `MemoryInfo`,
the create-or-refresh block `scoredEntry`, then `memUsage` (bytes to whole
megabytes) and `Set` with `time.Minute`. -/
def processOne (c : Cache) (fuel : Nat) (pMap : processesMap)
    (whiteList : whiteListMap) (killableKids : killableKidsPids)
    (pid : Int) (proc : ProcRef) : Option SetOp :=
  match isProcessKillable fuel proc pMap whiteList killableKids with
  | some (KResult.ok true) =>
    match proc.cpuTotal with
    | none => none
    | some total =>
      match proc.rss with
      | none => none
      | some rss =>
        some { key := toString pid
               entry := { scoredEntry c pid (nanoSeconds total) with
                            memUsage := rss / (1024 * 1024) }
               ttlSeconds := 60 }
  | _ => none

/-- The `UpdateCache` loop over the snapshot: applies `processOne` to each
pair, threading the cache (`Set` prepends, `lookup` sees the newest), and
collects the `Set` calls in order. -/
def updateCacheLoop (fuel : Nat) (pMap : processesMap)
    (whiteList : whiteListMap) (killableKids : killableKidsPids) :
    List (Int × ProcRef) → Cache → List SetOp → Cache × List SetOp
  | [], c, ops => (c, ops)
  | (pid, proc) :: rest, c, ops =>
    match processOne c fuel pMap whiteList killableKids pid proc with
    | none => updateCacheLoop fuel pMap whiteList killableKids rest c ops
    | some op =>
      updateCacheLoop fuel pMap whiteList killableKids rest
        ((op.key, op.entry) :: c) (ops ++ [op])

/-- `UpdateCache` from the source: build the snapshot (on enumeration error
the Go code logs and keeps the `nil` map, i.e. the loop runs over nothing),
build the protection sets, then run the loop. Result: the `Set` calls of
the cycle. -/
def updateCache (pids : List Int) (newProcess : Int → Option ProcRef)
    (c : Cache) (fuel : Nat) : List SetOp :=
  let pMap := (makeProcessesMap pids newProcess).getD []
  let sets := setupWhiteList pMap
  (updateCacheLoop fuel pMap sets.1 sets.2 pMap c []).2

/-- An ancestor walk certificate: `WalkChain pMap wl p chain a = true` means
that, starting from `p`, successive parent-pid resolutions pass through the
processes of `chain` — each one not protected and found in the snapshot —
and then produce the identifier `a`. -/
def WalkChain (pMap : processesMap) (wl : whiteListMap) :
    ProcRef → List ProcRef → Int → Bool
  | p, [], a => decide (p.ppid = some a)
  | p, q :: rest, a =>
    decide (p.ppid = some q.pid) && decide (q.pid ∉ wl) &&
      decide (pMap.lookup q.pid = some q) && WalkChain pMap wl q rest a

/-! Concrete scenario (the tree of scenario 7 in the spec): pid 1 is `core0` (protected and
exempt), pid 2 is a worker child of 1, pid 3 is a shell child of 2. -/

/-- Scenario process: pid 1, `core0`, parent 0. -/
def pCore : ProcRef :=
  { pid := 1, ppid := some 0, name := some "core0",
    cpuTotal := some (mkRat 2 1), rss := some 3145728 }

/-- Scenario process: pid 2, worker child of 1, 1.5 s of CPU, 5 MB + 1 byte. -/
def pWorker : ProcRef :=
  { pid := 2, ppid := some 1, name := some "worker",
    cpuTotal := some (mkRat 3 2), rss := some 5242881 }

/-- Scenario process: pid 3, shell child of 2. -/
def pShell : ProcRef :=
  { pid := 3, ppid := some 2, name := some "shell",
    cpuTotal := some (mkRat 1 1), rss := some 1048575 }

/-- Scenario process: pid 9, whose parent pid 7 is untracked. -/
def pOrphan : ProcRef :=
  { pid := 9, ppid := some 7, name := some "ghost",
    cpuTotal := some (mkRat 1 1), rss := some 0 }

/-- Scenario snapshot. -/
def pMapEx : processesMap := [(1, pCore), (2, pWorker), (3, pShell)]

/-- Scenario protected set, as `setupWhiteList` builds it. -/
def wlEx : whiteListMap := (setupWhiteList pMapEx).1

/-- Scenario exempt set, as `setupWhiteList` builds it. -/
def kkEx : killableKidsPids := (setupWhiteList pMapEx).2

/-- Scenario lookup collaborator for `makeProcessesMap`: pid 1 cannot be
resolved, pids 2 and 3 can; pid 3 is a `core0`, pid 2 its killable child. -/
def npEx : Int → Option ProcRef :=
  fun i =>
    if i = 2 then
      some { pid := 2, ppid := some 3, name := some "worker",
             cpuTotal := some (mkRat 1 1), rss := some 2097152 }
    else if i = 3 then
      some { pid := 3, ppid := some 0, name := some "core0",
             cpuTotal := some (mkRat 1 1), rss := some 0 }
    else none

/-- Scenario cache holding an entry for pid 2 with a large CPU baseline, so
the next reading is a counter decrease. -/
def cacheEx : Cache := [("2", ⟨"2", 5000000000, [], 5⟩)]

/-- The `Set` call `processOne` performs for `pWorker` on an empty cache. -/
def opWEx : SetOp := ⟨"2", ⟨"2", 1000000000, [], 5⟩, 60⟩

/-- Walk lemma: a certified walk from `p` through `chain` to a protected
identifier `a` makes `isParentKillable` terminate there, with the exempt
set deciding the verdict. -/
theorem isParentKillable_walk (pMap : processesMap) (wl : whiteListMap)
    (kk : killableKidsPids) :
    ∀ (chain : List ProcRef) (p : ProcRef) (a : Int) (fuel : Nat),
      chain.length < fuel →
      WalkChain pMap wl p chain a = true →
      a ∈ wl →
      isParentKillable fuel p pMap wl kk = some (KResult.ok (decide (a ∈ kk))) := by
  intro chain
  induction chain with
  | nil =>
    intro p a fuel hfuel hw ha
    cases fuel with
    | zero => omega
    | succ f =>
      simp only [WalkChain, decide_eq_true_eq] at hw
      simp only [isParentKillable, hw, if_pos ha]
      by_cases hk : a ∈ kk
      · simp [hk]
      · simp [hk]
  | cons q rest ih =>
    intro p a fuel hfuel hw ha
    cases fuel with
    | zero => omega
    | succ f =>
      simp only [WalkChain, Bool.and_eq_true, decide_eq_true_eq] at hw
      obtain ⟨⟨⟨hppid, hnw⟩, hlk⟩, hrest⟩ := hw
      simp only [isParentKillable, hppid, if_neg hnw, hlk]
      exact ih q a f (by simp at hfuel; omega) hrest ha

/-- Walk lemma: a certified walk whose end is an unprotected identifier that
is missing from the snapshot, or whose record has an unresolvable parent,
makes `isParentKillable` return the error result. -/
theorem isParentKillable_err_of_walk (pMap : processesMap) (wl : whiteListMap)
    (kk : killableKidsPids) :
    ∀ (chain : List ProcRef) (p : ProcRef) (a : Int) (fuel : Nat),
      chain.length + 1 < fuel →
      WalkChain pMap wl p chain a = true →
      a ∉ wl →
      (pMap.lookup a = none ∨ ∃ q, pMap.lookup a = some q ∧ q.ppid = none) →
      isParentKillable fuel p pMap wl kk = some KResult.err := by
  intro chain
  induction chain with
  | nil =>
    intro p a fuel hfuel hw ha hend
    cases fuel with
    | zero => omega
    | succ f =>
      simp only [WalkChain, decide_eq_true_eq] at hw
      simp only [isParentKillable, hw, if_neg ha]
      cases hend with
      | inl h => simp [h]
      | inr h =>
        obtain ⟨q, hlk, hq⟩ := h
        simp only [hlk]
        cases f with
        | zero => omega
        | succ g => simp [isParentKillable, hq]
  | cons q rest ih =>
    intro p a fuel hfuel hw ha hend
    cases fuel with
    | zero => omega
    | succ f =>
      simp only [WalkChain, Bool.and_eq_true, decide_eq_true_eq] at hw
      obtain ⟨⟨⟨hppid, hnw⟩, hlk⟩, hrest⟩ := hw
      simp only [isParentKillable, hppid, if_neg hnw, hlk]
      exact ih q a f (by simp at hfuel; omega) hrest ha hend

/-- Step lemma for C9: one `setupWhiteListStep` application preserves the
inclusion of the exempt accumulator in the protected accumulator. -/
theorem setupWhiteListStep_sub (acc : whiteListMap × killableKidsPids)
    (pr : Int × ProcRef) (h : ∀ x, x ∈ acc.2 → x ∈ acc.1) :
    ∀ x, x ∈ (setupWhiteListStep acc pr).2 → x ∈ (setupWhiteListStep acc pr).1 := by
  intro x
  unfold setupWhiteListStep
  cases hname : pr.2.name with
  | none =>
    exact h x
  | some n =>
    intro hx
    by_cases h1 : n ∈ whitelistNames
    · by_cases h2 : n ∈ killableKidsNames
      · simp only [if_pos h1, if_pos h2, List.mem_append] at hx ⊢
        rcases hx with hx | hx
        · exact Or.inl (h x hx)
        · exact Or.inr hx
      · simp only [if_pos h1, if_neg h2, List.mem_append] at hx ⊢
        exact Or.inl (h x hx)
    · simp only [if_neg h1] at hx ⊢
      exact h x hx

/-- Fold lemma for C9. -/
theorem setupWhiteList_foldl_sub :
    ∀ (l : List (Int × ProcRef)) (acc : whiteListMap × killableKidsPids),
      (∀ x, x ∈ acc.2 → x ∈ acc.1) →
      ∀ x, x ∈ (l.foldl setupWhiteListStep acc).2 →
        x ∈ (l.foldl setupWhiteListStep acc).1 := by
  intro l
  induction l with
  | nil =>
    intro acc h x hx
    exact h x hx
  | cons pr rest ih =>
    intro acc h x hx
    simp only [List.foldl_cons] at hx ⊢
    exact ih (setupWhiteListStep acc pr) (setupWhiteListStep_sub acc pr h) x hx

/-- C1: for a process outside the protected set, the first protected
ancestor reached by the walk fully determines the verdict: `(true, nil)`
when that ancestor is exempt, `(false, nil)` otherwise, whatever the
length of the unprotected chain below it and whatever lies above it. -/
theorem isKillable_first_protected_ancestor (pMap : processesMap)
    (wl : whiteListMap) (kk : killableKidsPids) (p : ProcRef)
    (chain : List ProcRef) (a : Int) (fuel : Nat)
    (hfuel : chain.length < fuel)
    (hp : p.pid ∉ wl)
    (hw : WalkChain pMap wl p chain a = true)
    (ha : a ∈ wl) :
    isProcessKillable fuel p pMap wl kk = some (KResult.ok (decide (a ∈ kk))) := by
  simp only [isProcessKillable, if_neg hp]
  exact isParentKillable_walk pMap wl kk chain p a fuel hfuel hw ha

/-- Witness for C1: in the spec scenario, pid 3 walks through pid 2 to the
protected and exempt pid 1 and is judged killable. -/
theorem isKillable_first_protected_ancestor_witness :
    (([pWorker] : List ProcRef).length < 3 ∧ pShell.pid ∉ wlEx ∧
      WalkChain pMapEx wlEx pShell [pWorker] 1 = true ∧ (1 : Int) ∈ wlEx) ∧
    isProcessKillable 3 pShell pMapEx wlEx kkEx =
      some (KResult.ok (decide ((1 : Int) ∈ kkEx))) :=
  ⟨⟨by decide, by decide, by decide, by decide⟩,
   isKillable_first_protected_ancestor pMapEx wlEx kkEx pShell [pWorker] 1 3
     (by decide) (by decide) (by decide) (by decide)⟩

/-- C3: a process whose own pid is in the protected set gets the verdict
`(false, nil)` with no look at the snapshot, the exempt set or any fuel. -/
theorem protected_process_not_killable (fuel : Nat) (p : ProcRef)
    (pMap : processesMap) (wl : whiteListMap) (kk : killableKidsPids)
    (hp : p.pid ∈ wl) :
    isProcessKillable fuel p pMap wl kk = some (KResult.ok false) := by
  simp [isProcessKillable, hp]

/-- Witness for C3: the protected pid 1 is not killable even with an empty
snapshot and zero fuel. -/
theorem protected_process_not_killable_witness :
    pCore.pid ∈ wlEx ∧
    isProcessKillable 0 pCore [] wlEx [] = some (KResult.ok false) :=
  ⟨by decide, protected_process_not_killable 0 pCore [] wlEx [] (by decide)⟩

/-- C4: if the walk fails to resolve an ancestor — its own parent pid at the
start, an unprotected ancestor missing from the snapshot, or an ancestor
record with an unresolvable parent — before reaching any protected
ancestor, the verdict is the error result `(false, error)`, never `true`. -/
theorem unresolved_ancestor_gives_error (pMap : processesMap)
    (wl : whiteListMap) (kk : killableKidsPids) (p : ProcRef) (fuel : Nat)
    (hp : p.pid ∉ wl)
    (hfail : (0 < fuel ∧ p.ppid = none) ∨
      ∃ chain a, chain.length + 1 < fuel ∧ WalkChain pMap wl p chain a = true ∧
        a ∉ wl ∧
        (pMap.lookup a = none ∨ ∃ q, pMap.lookup a = some q ∧ q.ppid = none)) :
    isProcessKillable fuel p pMap wl kk = some KResult.err := by
  simp only [isProcessKillable, if_neg hp]
  cases hfail with
  | inl h =>
    obtain ⟨hf, hnone⟩ := h
    cases fuel with
    | zero => omega
    | succ f => simp [isParentKillable, hnone]
  | inr h =>
    obtain ⟨chain, a, hfuel, hw, ha, hend⟩ := h
    exact isParentKillable_err_of_walk pMap wl kk chain p a fuel hfuel hw ha hend

/-- Witness for C4: pid 9 points at the untracked, unprotected pid 7 and
gets the error verdict. -/
theorem unresolved_ancestor_gives_error_witness :
    (pOrphan.pid ∉ wlEx ∧ WalkChain pMapEx wlEx pOrphan [] 7 = true ∧
      (7 : Int) ∉ wlEx ∧ pMapEx.lookup 7 = none) ∧
    isProcessKillable 3 pOrphan pMapEx wlEx kkEx = some KResult.err :=
  ⟨⟨by decide, by decide, by decide, by decide⟩,
   unresolved_ancestor_gives_error pMapEx wlEx kkEx pOrphan 3 (by decide)
     (Or.inr ⟨[], 7, by decide, by decide, by decide, Or.inl (by decide)⟩)⟩

/-- C9: the exempt set built by `setupWhiteList` is always a subset of the
protected set built in the same pass. -/
theorem exempt_subset_protected (pMap : processesMap) (x : Int)
    (hx : x ∈ (setupWhiteList pMap).2) : x ∈ (setupWhiteList pMap).1 :=
  setupWhiteList_foldl_sub pMap ([], []) (fun _ h => h) x hx

/-- Witness for C9: pid 1 (a `core0`) lands in both sets of the scenario. -/
theorem exempt_subset_protected_witness :
    (1 : Int) ∈ (setupWhiteList pMapEx).2 ∧ (1 : Int) ∈ (setupWhiteList pMapEx).1 :=
  ⟨by decide, exempt_subset_protected pMapEx 1 (by decide)⟩

/-- Characterization of a successful `processOne`: the process was judged
killable and both metric reads succeeded, and the `Set` call is the scored
entry under the decimal pid key with a 60 s TTL. -/
theorem processOne_some_iff (c : Cache) (fuel : Nat) (pMap : processesMap)
    (wl : whiteListMap) (kk : killableKidsPids) (pid : Int) (p : ProcRef)
    (op : SetOp) :
    processOne c fuel pMap wl kk pid p = some op ↔
      (isProcessKillable fuel p pMap wl kk = some (KResult.ok true) ∧
        ∃ total rss, p.cpuTotal = some total ∧ p.rss = some rss ∧
          op = { key := toString pid
                 entry := { scoredEntry c pid (nanoSeconds total) with
                              memUsage := rss / (1024 * 1024) }
                 ttlSeconds := 60 }) := by
  constructor
  · intro h
    unfold processOne at h
    split at h
    · rename_i xK heqK
      split at h
      · exact Option.noConfusion h
      · rename_i xT total heqT
        split at h
        · exact Option.noConfusion h
        · rename_i xR rss heqR
          injection h with h
          exact ⟨heqK, total, rss, heqT, heqR, h.symm⟩
    · exact Option.noConfusion h
  · rintro ⟨hk, total, rss, ht, hr, rfl⟩
    unfold processOne
    rw [hk, ht, hr]

/-- Helper for C2: one unresolvable pid anywhere in the enumeration makes
`makeProcessesMap` fail as a whole. -/
theorem makeProcessesMap_none (pids : List Int) (np : Int → Option ProcRef)
    (pid : Int) (hmem : pid ∈ pids) (hf : np pid = none) :
    makeProcessesMap pids np = none := by
  induction pids with
  | nil => cases hmem
  | cons q rest ih =>
    cases hmem with
    | head => simp [makeProcessesMap, hf]
    | tail _ hm =>
      unfold makeProcessesMap
      rw [ih hm]
      cases np q <;> rfl

/-- Counterexample for C2: pid 1 cannot be resolved while pids 2 and 3 can;
without pid 1 the cycle scores a process, with pid 1 in the enumeration the
whole cycle processes nothing — the failure is not isolated to the one
lookup. -/
theorem enumeration_failure_not_isolated_cex :
    npEx 1 = none ∧ npEx 2 ≠ none ∧ npEx 3 ≠ none ∧
    updateCache [2, 3] npEx [] 5 ≠ [] ∧
    updateCache [1, 2, 3] npEx [] 5 = [] := by decide

/-- C2 (amended): when any single process identifier cannot be resolved
during enumeration, the whole snapshot construction fails, and the cycle
runs over the resulting nil map: no process at all is scored. -/
theorem enumeration_failure_aborts_snapshot (pids : List Int)
    (np : Int → Option ProcRef) (c : Cache) (fuel : Nat) (pid : Int)
    (hmem : pid ∈ pids) (hf : np pid = none) :
    makeProcessesMap pids np = none ∧ updateCache pids np c fuel = [] := by
  have h := makeProcessesMap_none pids np pid hmem hf
  refine ⟨h, ?_⟩
  unfold updateCache
  rw [h]
  rfl

/-- Witness for C2 (amended): the failing pid 1 empties the whole cycle. -/
theorem enumeration_failure_aborts_snapshot_witness :
    ((1 : Int) ∈ [(1 : Int), 2, 3] ∧ npEx 1 = none) ∧
    (makeProcessesMap [1, 2, 3] npEx = none ∧
      updateCache [1, 2, 3] npEx [] 5 = []) :=
  ⟨⟨by decide, by decide⟩,
   enumeration_failure_aborts_snapshot [1, 2, 3] npEx [] 5 1 (by decide) (by decide)⟩

/-- Delta lemma: the modelled `utils.Delta` step never yields a negative
delta. -/
theorem deltaStep_nonneg (b r : Int) : 0 ≤ (deltaStep b r).1 := by
  unfold deltaStep
  dsimp only
  split <;> omega

/-- Delta lemma: a decreased cumulative reading yields a zero delta. -/
theorem deltaStep_clamp (b r : Int) (h : r < b) : (deltaStep b r).1 = 0 := by
  unfold deltaStep
  dsimp only
  rw [if_neg (by omega)]

/-- C5: on a refresh, the sample fed to the moving average is the clamped
delta of the new reading against the cached baseline: it is never negative,
and it is zero whenever the raw counter decreased. -/
theorem cpu_delta_clamped (c : Cache) (fuel : Nat) (pMap : processesMap)
    (wl : whiteListMap) (kk : killableKidsPids) (pid : Int) (p : ProcRef)
    (total : ℚ) (cached : Process) (op : SetOp)
    (ht : p.cpuTotal = some total)
    (hc : List.lookup (toString pid) c = some cached)
    (h : processOne c fuel pMap wl kk pid p = some op) :
    op.entry.cpuSamples =
      cached.cpuSamples ++ [(deltaStep cached.cpuBaseline (nanoSeconds total)).1] ∧
    0 ≤ (deltaStep cached.cpuBaseline (nanoSeconds total)).1 ∧
    (nanoSeconds total < cached.cpuBaseline →
      (deltaStep cached.cpuBaseline (nanoSeconds total)).1 = 0) := by
  obtain ⟨-, total2, rss2, ht2, hr2, rfl⟩ :=
    (processOne_some_iff c fuel pMap wl kk pid p op).mp h
  rw [ht] at ht2
  injection ht2 with e
  subst e
  refine ⟨?_, deltaStep_nonneg _ _, fun hlt => deltaStep_clamp _ _ hlt⟩
  show (scoredEntry c pid (nanoSeconds total)).cpuSamples = _
  unfold scoredEntry
  rw [hc]

/-- Witness for C5: with a cached baseline of 5 s the new 1.5 s reading is a
counter decrease; the sample fed to the average is 0. -/
theorem cpu_delta_clamped_witness :
    (pWorker.cpuTotal = some (mkRat 3 2) ∧
     List.lookup (toString (2 : Int)) cacheEx = some ⟨"2", 5000000000, [], 5⟩ ∧
     processOne cacheEx 3 pMapEx wlEx kkEx 2 pWorker =
       some ⟨"2", ⟨"2", 1000000000, [0], 5⟩, 60⟩) ∧
    ((⟨"2", ⟨"2", 1000000000, [0], 5⟩, 60⟩ : SetOp).entry.cpuSamples =
        ([] : List Int) ++ [(deltaStep 5000000000 (nanoSeconds (mkRat 3 2))).1] ∧
      0 ≤ (deltaStep 5000000000 (nanoSeconds (mkRat 3 2))).1 ∧
      (nanoSeconds (mkRat 3 2) < 5000000000 →
        (deltaStep 5000000000 (nanoSeconds (mkRat 3 2))).1 = 0)) :=
  ⟨⟨by decide, by decide, by decide⟩,
   cpu_delta_clamped cacheEx 3 pMapEx wlEx kkEx 2 pWorker (mkRat 3 2)
     ⟨"2", 5000000000, [], 5⟩ ⟨"2", ⟨"2", 1000000000, [0], 5⟩, 60⟩
     (by decide) (by decide) (by decide)⟩

/-- Counterexample for C6: the 1.5 s reading of pid 2, whose exact value in
nanoseconds is 1500000000 (certified by cross-multiplication on the exact
rational), is stored by the score update as 1000000000: the sub-second part
is lost. -/
theorem cpu_ns_exact_cex :
    pWorker.cpuTotal = some (mkRat 3 2) ∧
    processOne [] 3 pMapEx wlEx kkEx 2 pWorker = some opWEx ∧
    opWEx.entry.cpuBaseline = 1000000000 ∧
    (mkRat 3 2).num * 1000000000 = 1500000000 * ((mkRat 3 2).den : Int) ∧
    (1000000000 : Int) ≠ 1500000000 := by decide

/-- C6 (amended): the cumulative CPU-time value used by the score update is
the whole-second truncation (toward zero) of the reported seconds reading,
multiplied by 10^9; sub-second precision is discarded. -/
theorem cpu_ns_truncated (c : Cache) (fuel : Nat) (pMap : processesMap)
    (wl : whiteListMap) (kk : killableKidsPids) (pid : Int) (p : ProcRef)
    (total : ℚ) (op : SetOp)
    (ht : p.cpuTotal = some total)
    (h : processOne c fuel pMap wl kk pid p = some op) :
    op.entry.cpuBaseline = truncRat total * 1000000000 := by
  obtain ⟨-, total2, rss2, ht2, hr2, rfl⟩ :=
    (processOne_some_iff c fuel pMap wl kk pid p op).mp h
  rw [ht] at ht2
  injection ht2 with e
  subst e
  show (scoredEntry c pid (nanoSeconds total)).cpuBaseline = _
  unfold scoredEntry
  cases hl : List.lookup (toString pid) c with
  | none => rfl
  | some cached => rfl

/-- Witness for C6 (amended): the 1.5 s reading is stored as 1 · 10^9 ns. -/
theorem cpu_ns_truncated_witness :
    (pWorker.cpuTotal = some (mkRat 3 2) ∧
     processOne [] 3 pMapEx wlEx kkEx 2 pWorker = some opWEx) ∧
    opWEx.entry.cpuBaseline = truncRat (mkRat 3 2) * 1000000000 :=
  ⟨⟨by decide, by decide⟩,
   cpu_ns_truncated [] 3 pMapEx wlEx kkEx 2 pWorker (mkRat 3 2) opWEx
     (by decide) (by decide)⟩

/-- C7: the stored memory usage of every scored process is its resident
byte count divided by 1048576, fraction discarded. -/
theorem memory_whole_megabytes (c : Cache) (fuel : Nat) (pMap : processesMap)
    (wl : whiteListMap) (kk : killableKidsPids) (pid : Int) (p : ProcRef)
    (rss : Nat) (op : SetOp)
    (hr : p.rss = some rss)
    (h : processOne c fuel pMap wl kk pid p = some op) :
    op.entry.memUsage = rss / 1048576 := by
  obtain ⟨-, total2, rss2, ht2, hr2, rfl⟩ :=
    (processOne_some_iff c fuel pMap wl kk pid p op).mp h
  rw [hr] at hr2
  injection hr2 with e
  subst e
  rfl

/-- Witness for C7: pid 2 holds 5242881 bytes and is stored as 5 MB. -/
theorem memory_whole_megabytes_witness :
    (pWorker.rss = some 5242881 ∧
     processOne [] 3 pMapEx wlEx kkEx 2 pWorker = some opWEx) ∧
    opWEx.entry.memUsage = 5242881 / 1048576 :=
  ⟨⟨by decide, by decide⟩,
   memory_whole_megabytes [] 3 pMapEx wlEx kkEx 2 pWorker 5242881 opWEx
     (by decide) (by decide)⟩

/-- C8: every `Set` call of the score tracker — creation or refresh — uses a
time-to-live of exactly 60 seconds. -/
theorem scored_entry_ttl_sixty (c : Cache) (fuel : Nat) (pMap : processesMap)
    (wl : whiteListMap) (kk : killableKidsPids) (pid : Int) (p : ProcRef)
    (op : SetOp)
    (h : processOne c fuel pMap wl kk pid p = some op) :
    op.ttlSeconds = 60 := by
  obtain ⟨-, total2, rss2, ht2, hr2, rfl⟩ :=
    (processOne_some_iff c fuel pMap wl kk pid p op).mp h
  rfl

/-- Witness for C8: the scenario `Set` call carries a 60 s TTL. -/
theorem scored_entry_ttl_sixty_witness :
    processOne [] 3 pMapEx wlEx kkEx 2 pWorker = some opWEx ∧
    opWEx.ttlSeconds = 60 :=
  ⟨by decide,
   scored_entry_ttl_sixty [] 3 pMapEx wlEx kkEx 2 pWorker opWEx (by decide)⟩

/-- C10: every score entry is keyed and named by the decimal string of the
pid: on creation the `Name` of the entry is that string, and a refresh keeps the
name of the cached entry unchanged — the operating-system process name is never
consulted. -/
theorem score_entry_name_is_pid_key (c : Cache) (fuel : Nat)
    (pMap : processesMap) (wl : whiteListMap) (kk : killableKidsPids)
    (pid : Int) (p : ProcRef) (op : SetOp)
    (h : processOne c fuel pMap wl kk pid p = some op) :
    op.key = toString pid ∧
    (List.lookup (toString pid) c = none → op.entry.Name = toString pid) ∧
    (∀ cached, List.lookup (toString pid) c = some cached →
      op.entry.Name = cached.Name) := by
  obtain ⟨-, total2, rss2, ht2, hr2, rfl⟩ :=
    (processOne_some_iff c fuel pMap wl kk pid p op).mp h
  refine ⟨rfl, fun hnone => ?_, fun cached hlk => ?_⟩
  · show (scoredEntry c pid (nanoSeconds total2)).Name = _
    unfold Process.Name scoredEntry
    rw [hnone]
  · show (scoredEntry c pid (nanoSeconds total2)).Name = _
    unfold Process.Name scoredEntry
    rw [hlk]

/-- Witness for C10: the scenario entry for pid 2 is created with name
`"2"`, the decimal pid key, although the operating-system name of the process is `worker`. -/
theorem score_entry_name_is_pid_key_witness :
    processOne [] 3 pMapEx wlEx kkEx 2 pWorker = some opWEx ∧
    (opWEx.key = toString (2 : Int) ∧
     (List.lookup (toString (2 : Int)) ([] : Cache) = none →
       opWEx.entry.Name = toString (2 : Int)) ∧
     (∀ cached, List.lookup (toString (2 : Int)) ([] : Cache) = some cached →
       opWEx.entry.Name = cached.Name)) :=
  ⟨by decide,
   score_entry_name_is_pid_key [] 3 pMapEx wlEx kkEx 2 pWorker opWEx (by decide)⟩

end Ork
